import Mathlib

/-!
# GPU input boost driver (`drivers/gpu/msm/gpu_input_boost.c`)

A shallow embedding of the boost state machine of the driver: the flag word,
the max-boost expiry arbiter, the two deferred unboost works, the display
notifier callback and the module initialisation path.

Conventions of the embedding.

* `unsigned long` values (the flag word, `jiffies`, `max_boost_expires`, timer
  deadlines) are natural numbers; arithmetic the C code performs on them is
  reduced modulo `2 ^ 64` explicitly.
* Every operation of the driver takes the driver record `boost_drv` and returns
  the updated record together with the number of `wake_up(&b->boost_waitq)`
  calls it made, so that "the wait queue is not signalled" is a statement about
  the second component.
* Kernel facilities that the driver calls but that are not part of the driver
  sources (bit operations, `time_after`, `mod_delayed_work`, the atomic
  compare-and-exchange, `msecs_to_jiffies`, notifier constants) are either
  parameters collected in `kparams` or small models documented as such.
-/

namespace GpuInputBoost

/-! ## Machine words -/

/-- Number of values of an `unsigned long` on the 64-bit target of this kernel tree:
`2 ^ 64`. -/
def ULONG_MOD : Nat := 18446744073709551616

/-- Largest `unsigned long`, the all-ones word. -/
def ULONG_MAX : Nat := 18446744073709551615

/-- Smallest word whose reading as `long` is negative: `2 ^ 63`. -/
def LONG_SIGN : Nat := 9223372036854775808

/-- Flag numbers: `enum { SCREEN_OFF, INPUT_BOOST, MAX_BOOST }`. -/
def SCREEN_OFF : Nat := 0

/-- Second enumerator of the flag enum. -/
def INPUT_BOOST : Nat := 1

/-- Third enumerator of the flag enum. -/
def MAX_BOOST : Nat := 2

/-- Modelled from the spec: the kernel bit primitive `test_bit` is not part of the
driver sources; the spec says the flags are "independent boolean bits" read by an
atomic test. `test_bit(nr, &w)` is bit `nr` of the word. -/
def test_bit (nr w : Nat) : Bool := w.testBit nr

/-- Modelled from the spec: the kernel bit primitive `set_bit` is not part of the
driver sources; it is `w |= 1UL << nr`. -/
def set_bit (nr w : Nat) : Nat := w ||| (1 <<< nr)

/-- Modelled from the spec: the kernel bit primitive `clear_bit` is not part of the
driver sources; it is `w &= ~(1UL << nr)` on a 64-bit word. -/
def clear_bit (nr w : Nat) : Nat := w &&& (ULONG_MAX ^^^ (1 <<< nr))

/-- Modelled from the spec: `time_after(a, b)` is a kernel macro absent from the
driver sources; spec 4.1 reads it as "`a` is already later than `b`". The kernel
realises it wrap-safely as `(long)(b - a) < 0` on `unsigned long` operands. -/
def time_after (a b : Nat) : Bool :=
  decide (LONG_SIGN ≤ (b % ULONG_MOD + ULONG_MOD - a % ULONG_MOD) % ULONG_MOD)

/-- Modelled from the spec: `time_after_eq(a, b)`, the kernel's wrap-safe
"`a` is at or after `b`": `(long)(a - b) >= 0`. Used for "a deferred callback runs
no earlier than its deadline". -/
def time_after_eq (a b : Nat) : Bool :=
  decide ((a % ULONG_MOD + ULONG_MOD - b % ULONG_MOD) % ULONG_MOD < LONG_SIGN)

/-! ## Parameters of the driver -/

/-- What the driver takes from outside its own sources: the tick conversion
`msecs_to_jiffies` (depends on `HZ`), the two runtime-writable module parameters of
`gpu_input.h`, and the notifier constants of the frame-buffer headers. -/
structure kparams where
  /-- Conversion of milliseconds to timer ticks. -/
  msecs_to_jiffies : Nat → Nat
  /-- Module parameter `input_boost_duration` (an `unsigned short`, milliseconds). -/
  input_boost_duration : Nat
  /-- Module parameter `wake_boost_duration` (an `unsigned short`, milliseconds). -/
  wake_boost_duration : Nat
  /-- Notifier action announcing a blank-state change. -/
  FB_EVENT_BLANK : Nat
  /-- Blank value meaning "display on". -/
  FB_BLANK_UNBLANK : Int
  /-- Return value of a notifier callback. -/
  NOTIFY_OK : Int

/-- A concrete parameter set: `HZ = 1000` (one tick per millisecond, so
`msecs_to_jiffies` is the identity), input boost 100 ms, wake boost 1000 ms, and
the header values `FB_EVENT_BLANK = 0x09`, `FB_BLANK_UNBLANK = 0`, `NOTIFY_OK = 1`. -/
def kparams_hz1000 : kparams where
  msecs_to_jiffies := fun m => m
  input_boost_duration := 100
  wake_boost_duration := 1000
  FB_EVENT_BLANK := 9
  FB_BLANK_UNBLANK := 0
  NOTIFY_OK := 1

/-! ## The driver record -/

/-- The fields of `struct boost_drv` that carry state. A `struct delayed_work` is
represented by its pending status: `none` when the work is idle, `some e` when it
is pending with timer deadline `e`. The two notifier blocks hold only callback
pointers and are left out; `boost_waitq` has no contents of its own, signals on it
are counted in the result of each operation. -/
structure boost_drv where
  /-- Deferred work clearing `INPUT_BOOST`. -/
  input_unboost : Option Nat
  /-- Deferred work clearing `MAX_BOOST`. -/
  max_unboost : Option Nat
  /-- Latest requested max-boost deadline (`atomic_long_t`). -/
  max_boost_expires : Nat
  /-- Flag word. -/
  state : Nat
deriving DecidableEq

/-- The statically initialised `boost_drv_g`: both works idle, everything else
zero-initialised. -/
def boost_drv_g : boost_drv where
  input_unboost := none
  max_unboost := none
  max_boost_expires := 0
  state := 0

/-- Modelled from the spec: `mod_delayed_work` belongs to the kernel workqueue and
is not part of the driver sources. Spec 4.3: "arming a callback that is already
pending atomically replaces its deadline"; the call reports whether the work was
pending before. The new deadline is `jiffies + delay` as an `unsigned long`. -/
def mod_delayed_work (jiffies : Nat) (dwork : Option Nat) (delay : Nat) :
    Bool × Option Nat :=
  (dwork.isSome, some ((jiffies + delay) % ULONG_MOD))

/-- Modelled from the spec: `atomic_long_cmpxchg(v, old, new)` is a kernel atomic
absent from the driver sources: it stores `new` when the cell holds `old` and
returns the value the cell held. Result: (returned value, cell afterwards). -/
def atomic_long_cmpxchg (v old new : Nat) : Nat × Nat :=
  (v, if v = old then new else v)

/-! ## Operations -/

/-- `boost_adjust_notify`: the boost level currently requested, with the driver
record passed through. -/
def boost_adjust_notify (b : boost_drv) : Int × boost_drv :=
  if test_bit MAX_BOOST b.state then (2, b)
  else if test_bit INPUT_BOOST b.state then (1, b)
  else (0, b)

/-- `__gpu_input_boost_kick` at tick `jiffies`. -/
def __gpu_input_boost_kick (k : kparams) (jiffies : Nat) (b : boost_drv) :
    boost_drv × Nat :=
  if test_bit SCREEN_OFF b.state then (b, 0)
  else if k.input_boost_duration = 0 then (b, 0)
  else
    let b1 := { b with state := set_bit INPUT_BOOST b.state }
    let r := mod_delayed_work jiffies b1.input_unboost
      (k.msecs_to_jiffies k.input_boost_duration)
    let b2 := { b1 with input_unboost := r.2 }
    if !r.1 then (b2, 1) else (b2, 0)

/-- `gpu_input_boost_kick`: the exported entry point. -/
def gpu_input_boost_kick (k : kparams) (jiffies : Nat) (b : boost_drv) :
    boost_drv × Nat :=
  __gpu_input_boost_kick k jiffies b

/-- The `do { ... } while (cmpxchg != curr_expires)` loop of
`__gpu_input_boost_kick_max`, on the expiry cell alone. The first argument bounds
the number of iterations. Result `none`: bound exhausted; `some none`: the early
`return` (a longer boost is in effect); `some (some v)`: the exchange succeeded and
the cell now holds `v`. -/
def kick_max_loop (jiffies boost_jiffies : Nat) : Nat → Nat → Option (Option Nat)
  | 0, _ => none
  | fuel + 1, cell =>
    let curr_expires := cell
    let new_expires := (jiffies + boost_jiffies) % ULONG_MOD
    if time_after curr_expires new_expires then some none
    else
      let r := atomic_long_cmpxchg cell curr_expires new_expires
      if r.1 != curr_expires then kick_max_loop jiffies boost_jiffies fuel r.2
      else some (some r.2)

/-- `__gpu_input_boost_kick_max` at tick `jiffies`. With no concurrent writer the
exchange compares the cell with the value just read from it, so one iteration of
the loop is enough (`kick_max_loop_succ`); the `none` arm is never taken. -/
def __gpu_input_boost_kick_max (k : kparams) (jiffies : Nat) (b : boost_drv)
    (duration_ms : Nat) : boost_drv × Nat :=
  let boost_jiffies := k.msecs_to_jiffies duration_ms
  if test_bit SCREEN_OFF b.state then (b, 0)
  else
    match kick_max_loop jiffies boost_jiffies 1 b.max_boost_expires with
    | none => (b, 0)
    | some none => (b, 0)
    | some (some v) =>
      let b1 := { b with max_boost_expires := v }
      let b2 := { b1 with state := set_bit MAX_BOOST b1.state }
      let r := mod_delayed_work jiffies b2.max_unboost boost_jiffies
      let b3 := { b2 with max_unboost := r.2 }
      if !r.1 then (b3, 1) else (b3, 0)

/-- `gpu_input_boost_kick_max`: the exported entry point. -/
def gpu_input_boost_kick_max (k : kparams) (jiffies : Nat) (b : boost_drv)
    (duration_ms : Nat) : boost_drv × Nat :=
  __gpu_input_boost_kick_max k jiffies b duration_ms

/-- `input_unboost_worker`: body of the input-unboost work. -/
def input_unboost_worker (b : boost_drv) : boost_drv × Nat :=
  ({ b with state := clear_bit INPUT_BOOST b.state }, 1)

/-- `max_unboost_worker`: body of the max-unboost work. -/
def max_unboost_worker (b : boost_drv) : boost_drv × Nat :=
  ({ b with state := clear_bit MAX_BOOST b.state }, 1)

/-- `fb_notifier_cb` at tick `jiffies`, called with `action` and `*blank`.
Result: the notifier return value, the driver record, the wake-up count. -/
def fb_notifier_cb (k : kparams) (jiffies : Nat) (b : boost_drv) (action : Nat)
    (blank : Int) : Int × boost_drv × Nat :=
  if action ≠ k.FB_EVENT_BLANK then (k.NOTIFY_OK, b, 0)
  else if blank = k.FB_BLANK_UNBLANK then
    let b1 := { b with state := clear_bit SCREEN_OFF b.state }
    let r := __gpu_input_boost_kick_max k jiffies b1 k.wake_boost_duration
    (k.NOTIFY_OK, r.1, r.2)
  else (k.NOTIFY_OK, b, 0)

/-! ## Module initialisation -/

/-- Calls that `gpu_input_boost_init` makes into the rest of the kernel, in the
order it makes them; `pr_err` carries the logged error code. -/
inductive init_call where
  | input_register_handler
  | pr_err (ret : Int)
  | fb_register_client
  | kthread_run
  | fb_unregister_client
  | input_unregister_handler
deriving DecidableEq

/-- `gpu_input_boost_init` as a function of the outcomes of its three startup
steps: `input_ret` is what `input_register_handler` returns, `fb_ret` what
`fb_register_client` returns (zero means success for both), and `thread` is
`none` when `kthread_run` returns a task and `some e` when it returns
`ERR_PTR(e)`. Result: the value returned by init and the calls made. -/
def gpu_input_boost_init (input_ret fb_ret : Int) (thread : Option Int) :
    Int × List init_call :=
  let t0 := [init_call.input_register_handler]
  let t1 := if input_ret ≠ 0 then t0 ++ [init_call.pr_err input_ret] else t0
  let t2 := t1 ++ [init_call.fb_register_client]
  if fb_ret ≠ 0 then
    (fb_ret, t2 ++ [init_call.pr_err fb_ret, init_call.input_unregister_handler])
  else
    let t3 := t2 ++ [init_call.kthread_run]
    match thread with
    | some e =>
      (e, t3 ++ [init_call.pr_err e, init_call.fb_unregister_client,
        init_call.input_unregister_handler])
    | none => (0, t3)

/-! ## The driver in its environment -/

/-- The driver record together with the tick count since boot; the kernel's
`jiffies` is this count as an `unsigned long`. -/
structure sys where
  /-- The driver record. -/
  b : boost_drv
  /-- Ticks elapsed since boot. -/
  now : Nat
deriving DecidableEq

/-- The `jiffies` word read at a given moment. -/
def sys.jiffies (s : sys) : Nat := s.now % ULONG_MOD

/-- What can happen to the driver: the two exported kicks (an input event is a
`kick`), a display notification, the passage of time, and the workqueue running
one of the two deferred works. -/
inductive event where
  | kick
  | kick_max (duration_ms : Nat)
  | fb (action : Nat) (blank : Int)
  | advance (ticks : Nat)
  | fire_input
  | fire_max
deriving DecidableEq

/-- Modelled from the spec: the deferred-execution facility (kernel workqueue and
timers) is not part of the driver sources. Spec 6: "run this callback no earlier
than T, rearmable, cancelable". A pending work whose deadline has been reached may
run: it stops being pending and its worker body executes. Result `none` means the
event cannot happen in this state. -/
def step (k : kparams) (s : sys) : event → Option sys
  | .kick => some { s with b := (gpu_input_boost_kick k s.jiffies s.b).1 }
  | .kick_max d => some { s with b := (gpu_input_boost_kick_max k s.jiffies s.b d).1 }
  | .fb action blank =>
    some { s with b := (fb_notifier_cb k s.jiffies s.b action blank).2.1 }
  | .advance ticks => some { s with now := s.now + ticks }
  | .fire_input =>
    match s.b.input_unboost with
    | some e =>
      if time_after_eq s.jiffies e then
        some { s with b := (input_unboost_worker { s.b with input_unboost := none }).1 }
      else none
    | none => none
  | .fire_max =>
    match s.b.max_unboost with
    | some e =>
      if time_after_eq s.jiffies e then
        some { s with b := (max_unboost_worker { s.b with max_unboost := none }).1 }
      else none
    | none => none

/-- A sequence of events, one after the other; `none` when some event of the
sequence cannot happen. -/
def run (k : kparams) : sys → List event → Option sys
  | s, [] => some s
  | s, e :: es => (step k s e).bind (fun s1 => run k s1 es)

/-- The state at module load: `boost_drv_g` at tick zero. -/
def sys_init : sys where
  b := boost_drv_g
  now := 0

/-- Events of the environment alone: no call into the driver. -/
def event.is_env : event → Bool
  | .advance _ => true
  | .fire_input => true
  | .fire_max => true
  | _ => false

/-- A sequence of `gpu_input_boost_kick_max` calls, each given as
(`jiffies` at the call, `duration_ms`), run one after the other. -/
def kick_max_seq (k : kparams) (b : boost_drv) (calls : List (Nat × Nat)) : boost_drv :=
  calls.foldl (fun acc c => (gpu_input_boost_kick_max k c.1 acc c.2).1) b

/-- The deadline requested by one call: `jiffies + msecs_to_jiffies(duration_ms)`. -/
def requested_expiry (k : kparams) (c : Nat × Nat) : Nat :=
  c.1 + k.msecs_to_jiffies c.2

/-- The max-boost invariant: when `MAX_BOOST` is set, the max-unboost work is pending
and its deadline is `max_boost_expires`. -/
def max_boost_armed (b : boost_drv) : Prop :=
  test_bit MAX_BOOST b.state = true → b.max_unboost = some b.max_boost_expires

/-- What holds after an input kick at tick `t0` while only the environment acts:
time has not gone back, `MAX_BOOST` is clear, and either the input-unboost work is
still pending with the deadline set by the kick and `INPUT_BOOST` is set, or the
work has run (not before its deadline) and `INPUT_BOOST` is clear. -/
def input_window (k : kparams) (t0 : Nat) (s : sys) : Prop :=
  t0 ≤ s.now ∧ test_bit MAX_BOOST s.b.state = false ∧
  ((s.b.input_unboost =
        some ((t0 + k.msecs_to_jiffies k.input_boost_duration) % ULONG_MOD) ∧
      test_bit INPUT_BOOST s.b.state = true) ∨
    (s.b.input_unboost = none ∧ test_bit INPUT_BOOST s.b.state = false ∧
      t0 + k.msecs_to_jiffies k.input_boost_duration ≤ s.now))

/-! ## Bit-level lemmas -/

theorem test_bit_set_bit (i n w : Nat) :
    test_bit i (set_bit n w) = (test_bit i w || decide (n = i)) := by
  simp only [test_bit, set_bit, Nat.testBit_or, Nat.one_shiftLeft, Nat.testBit_two_pow]

theorem ulong_max_eq : ULONG_MAX = 2 ^ 64 - 1 := by decide

theorem test_bit_clear_bit (i n w : Nat) :
    test_bit i (clear_bit n w) = (test_bit i w && (decide (i < 64) ^^ decide (n = i))) := by
  simp only [test_bit, clear_bit, Nat.testBit_and, Nat.testBit_xor, Nat.one_shiftLeft,
    Nat.testBit_two_pow, ulong_max_eq, Nat.testBit_two_pow_sub_one]

theorem test_bit_of_lt (w i : Nat) (hw : w < ULONG_MOD) (hi : 64 ≤ i) :
    test_bit i w = false := by
  apply Nat.testBit_lt_two_pow
  calc w < 2 ^ 64 := hw
    _ ≤ 2 ^ i := Nat.pow_le_pow_right (by decide) hi

/-! ## Wrap-safe comparisons away from wrap-around -/

theorem time_after_no_wrap (a b : Nat) (ha : a < LONG_SIGN) (hb : b < LONG_SIGN) :
    time_after a b = decide (b < a) := by
  unfold time_after
  unfold LONG_SIGN at *
  unfold ULONG_MOD
  rw [decide_eq_decide]
  omega

theorem time_after_eq_not_due (t e d : Nat) (he : e < d) (hd : d < LONG_SIGN) :
    time_after_eq ((t + e) % ULONG_MOD) ((t + d) % ULONG_MOD) = false := by
  unfold time_after_eq
  unfold LONG_SIGN at *
  unfold ULONG_MOD
  rw [decide_eq_false_iff_not]
  omega

theorem time_after_eq_due (t e d : Nat) (he : d ≤ e) (hd : e < d + LONG_SIGN) :
    time_after_eq ((t + e) % ULONG_MOD) ((t + d) % ULONG_MOD) = true := by
  unfold time_after_eq
  unfold LONG_SIGN at *
  unfold ULONG_MOD
  rw [decide_eq_true_iff]
  omega

/-! ## The expiry loop runs once -/

theorem kick_max_loop_succ (jiffies boost_jiffies fuel cell : Nat) :
    kick_max_loop jiffies boost_jiffies (fuel + 1) cell =
      if time_after cell ((jiffies + boost_jiffies) % ULONG_MOD) then some none
      else some (some ((jiffies + boost_jiffies) % ULONG_MOD)) := by
  simp [kick_max_loop, atomic_long_cmpxchg]

theorem kick_max_eq (k : kparams) (jiffies : Nat) (b : boost_drv) (d : Nat) :
    __gpu_input_boost_kick_max k jiffies b d =
      if test_bit SCREEN_OFF b.state then (b, 0)
      else if time_after b.max_boost_expires
          ((jiffies + k.msecs_to_jiffies d) % ULONG_MOD) then (b, 0)
      else
        ({ input_unboost := b.input_unboost
           max_unboost := some ((jiffies + k.msecs_to_jiffies d) % ULONG_MOD)
           max_boost_expires := (jiffies + k.msecs_to_jiffies d) % ULONG_MOD
           state := set_bit MAX_BOOST b.state },
          if b.max_unboost.isSome then 0 else 1) := by
  unfold __gpu_input_boost_kick_max
  simp only [kick_max_loop_succ, mod_delayed_work]
  by_cases h1 : test_bit SCREEN_OFF b.state = true
  · simp [h1]
  · by_cases h2 : time_after b.max_boost_expires
        ((jiffies + k.msecs_to_jiffies d) % ULONG_MOD) = true
    · simp [h1, h2]
    · cases h3 : b.max_unboost <;> simp [h1, h2, h3]

/-- Away from wrap-around one max kick leaves the expiry at the larger of the old
expiry and the requested one, and never sets `SCREEN_OFF`. -/
theorem kick_max_expiry_max (k : kparams) (jiffies : Nat) (b : boost_drv) (d : Nat)
    (hon : test_bit SCREEN_OFF b.state = false)
    (hb : b.max_boost_expires < LONG_SIGN)
    (hn : jiffies + k.msecs_to_jiffies d < LONG_SIGN) :
    (gpu_input_boost_kick_max k jiffies b d).1.max_boost_expires =
        max b.max_boost_expires (jiffies + k.msecs_to_jiffies d) ∧
    test_bit SCREEN_OFF (gpu_input_boost_kick_max k jiffies b d).1.state = false := by
  have hmod : (jiffies + k.msecs_to_jiffies d) % ULONG_MOD = jiffies + k.msecs_to_jiffies d := by
    unfold ULONG_MOD
    unfold LONG_SIGN at hn
    omega
  unfold gpu_input_boost_kick_max
  rw [kick_max_eq, hmod, time_after_no_wrap _ _ hb hn]
  simp only [hon, Bool.false_eq_true, if_false]
  by_cases h : jiffies + k.msecs_to_jiffies d < b.max_boost_expires
  · simp only [h, decide_True, if_true, hon]
    exact ⟨by omega, trivial⟩
  · simp only [h, decide_False, Bool.false_eq_true, if_false, test_bit_set_bit, hon]
    exact ⟨by omega, by decide⟩

theorem foldl_max_ge (l : List Nat) (a : Nat) :
    a ≤ l.foldl max a ∧ ∀ x ∈ l, x ≤ l.foldl max a := by
  induction l generalizing a with
  | nil => simp
  | cons y ys ih =>
    simp only [List.foldl_cons, List.mem_cons]
    have h := ih (max a y)
    refine ⟨le_trans (le_max_left a y) h.1, ?_⟩
    intro x hx
    rcases hx with rfl | hx
    · exact le_trans (le_max_right a x) h.1
    · exact h.2 x hx

theorem foldl_max_mem (l : List Nat) (a : Nat) :
    l.foldl max a = a ∨ l.foldl max a ∈ l := by
  induction l generalizing a with
  | nil => simp
  | cons y ys ih =>
    simp only [List.foldl_cons, List.mem_cons]
    rcases ih (max a y) with h | h
    · rw [h]
      rcases max_choice a y with h1 | h1
      · exact Or.inl h1
      · exact Or.inr (Or.inl h1)
    · exact Or.inr (Or.inr h)

theorem seq_expiry_from_state (k : kparams) (calls : List (Nat × Nat)) (b : boost_drv)
    (hon : test_bit SCREEN_OFF b.state = false)
    (hb : b.max_boost_expires < LONG_SIGN)
    (hwrap : ∀ c ∈ calls, requested_expiry k c < LONG_SIGN) :
    (kick_max_seq k b calls).max_boost_expires =
        (calls.map (requested_expiry k)).foldl max b.max_boost_expires ∧
    (kick_max_seq k b calls).max_boost_expires < LONG_SIGN ∧
    test_bit SCREEN_OFF (kick_max_seq k b calls).state = false := by
  induction calls generalizing b with
  | nil => exact ⟨rfl, hb, hon⟩
  | cons c cs ih =>
    have hc : c.1 + k.msecs_to_jiffies c.2 < LONG_SIGN := hwrap c (List.mem_cons_self c cs)
    have h1 := kick_max_expiry_max k c.1 b c.2 hon hb hc
    have h2 := ih (gpu_input_boost_kick_max k c.1 b c.2).1 h1.2
      (by rw [h1.1]; exact max_lt hb hc)
      (fun x hx => hwrap x (List.mem_cons_of_mem c hx))
    simp only [kick_max_seq, List.foldl_cons, List.map_cons] at h2 ⊢
    rw [h1.1] at h2
    exact h2

/-! ## Clearing a bit -/

theorem clear_bit_idem (n w : Nat) : clear_bit n (clear_bit n w) = clear_bit n w := by
  unfold clear_bit
  rw [Nat.and_assoc, Nat.and_self]

theorem test_bit_clear_bit_self (n w : Nat) (hn : n < 64) :
    test_bit n (clear_bit n w) = false := by
  rw [test_bit_clear_bit]
  simp [hn]

theorem test_bit_clear_bit_of_ne (i n w : Nat) (hw : w < ULONG_MOD) (hne : i ≠ n) :
    test_bit i (clear_bit n w) = test_bit i w := by
  rw [test_bit_clear_bit]
  by_cases h : i < 64
  · simp [h, Ne.symm hne]
  · rw [test_bit_of_lt w i hw (by omega)]
    rfl

theorem clear_bit_eq_self (n w : Nat) (hn : n < 64) (hw : w < ULONG_MOD)
    (hclear : test_bit n w = false) : clear_bit n w = w := by
  apply Nat.eq_of_testBit_eq
  intro i
  by_cases hi : i = n
  · subst hi
    have h := test_bit_clear_bit_self i w hn
    unfold test_bit at h hclear
    rw [h, hclear]
  · exact test_bit_clear_bit_of_ne i n w hw hi

theorem fb_notifier_cb_blank (k : kparams) (jiffies : Nat) (b : boost_drv) (blank : Int)
    (hne : blank ≠ k.FB_BLANK_UNBLANK) :
    fb_notifier_cb k jiffies b k.FB_EVENT_BLANK blank = (k.NOTIFY_OK, b, 0) := by
  simp [fb_notifier_cb, hne]

theorem fb_notifier_cb_unblank (k : kparams) (jiffies : Nat) (b : boost_drv) :
    fb_notifier_cb k jiffies b k.FB_EVENT_BLANK k.FB_BLANK_UNBLANK =
      (k.NOTIFY_OK,
        (__gpu_input_boost_kick_max k jiffies
          { b with state := clear_bit SCREEN_OFF b.state } k.wake_boost_duration).1,
        (__gpu_input_boost_kick_max k jiffies
          { b with state := clear_bit SCREEN_OFF b.state } k.wake_boost_duration).2) := by
  simp [fb_notifier_cb]

/-! ## Input kick -/

theorem kick_eq (k : kparams) (jiffies : Nat) (b : boost_drv) :
    __gpu_input_boost_kick k jiffies b =
      if test_bit SCREEN_OFF b.state then (b, 0)
      else if k.input_boost_duration = 0 then (b, 0)
      else
        ({ input_unboost :=
             some ((jiffies + k.msecs_to_jiffies k.input_boost_duration) % ULONG_MOD)
           max_unboost := b.max_unboost
           max_boost_expires := b.max_boost_expires
           state := set_bit INPUT_BOOST b.state },
          if b.input_unboost.isSome then 0 else 1) := by
  unfold __gpu_input_boost_kick
  simp only [mod_delayed_work]
  by_cases h1 : test_bit SCREEN_OFF b.state = true
  · simp [h1]
  · by_cases h2 : k.input_boost_duration = 0
    · simp [h1, h2]
    · cases h3 : b.input_unboost <;> simp [h1, h2, h3]

/-! ## Preservation of the max-boost invariant -/

theorem kick_armed (k : kparams) (jiffies : Nat) (b : boost_drv)
    (h : max_boost_armed b) : max_boost_armed (gpu_input_boost_kick k jiffies b).1 := by
  unfold gpu_input_boost_kick
  rw [kick_eq]
  by_cases h1 : test_bit SCREEN_OFF b.state = true
  · simpa [h1] using h
  · by_cases h2 : k.input_boost_duration = 0
    · simpa [h1, h2] using h
    · simp only [h1, h2, if_false]
      intro hm
      have hm2 : test_bit MAX_BOOST (set_bit INPUT_BOOST b.state) = true := hm
      rw [test_bit_set_bit] at hm2
      exact h (by simpa [INPUT_BOOST, MAX_BOOST] using hm2)

theorem kick_max_armed (k : kparams) (jiffies : Nat) (b : boost_drv) (d : Nat)
    (h : max_boost_armed b) : max_boost_armed (__gpu_input_boost_kick_max k jiffies b d).1 := by
  rw [kick_max_eq]
  by_cases h1 : test_bit SCREEN_OFF b.state = true
  · simpa [h1] using h
  · by_cases h2 : time_after b.max_boost_expires
        ((jiffies + k.msecs_to_jiffies d) % ULONG_MOD) = true
    · simpa [h1, h2] using h
    · simp only [h1, h2, if_false]
      intro _
      rfl

theorem clear_armed (b : boost_drv) (n : Nat) (h : max_boost_armed b) :
    max_boost_armed { b with state := clear_bit n b.state } := by
  intro hm
  have hm2 : test_bit MAX_BOOST (clear_bit n b.state) = true := hm
  rw [test_bit_clear_bit, Bool.and_eq_true] at hm2
  exact h hm2.1

theorem fb_armed (k : kparams) (jiffies : Nat) (b : boost_drv) (action : Nat) (blank : Int)
    (h : max_boost_armed b) :
    max_boost_armed (fb_notifier_cb k jiffies b action blank).2.1 := by
  unfold fb_notifier_cb
  by_cases h1 : action ≠ k.FB_EVENT_BLANK
  · simpa [h1] using h
  · by_cases h2 : blank = k.FB_BLANK_UNBLANK
    · simp only [h1, h2, if_false, if_true]
      exact kick_max_armed k jiffies _ _
        (clear_armed b SCREEN_OFF h)
    · simpa [h1, h2] using h

theorem step_armed (k : kparams) (s s1 : sys) (e : event)
    (h : max_boost_armed s.b) (hs : step k s e = some s1) : max_boost_armed s1.b := by
  cases e with
  | kick =>
    simp only [step, Option.some.injEq] at hs
    subst hs
    exact kick_armed k _ _ h
  | kick_max d =>
    simp only [step, Option.some.injEq] at hs
    subst hs
    exact kick_max_armed k _ _ _ h
  | fb action blank =>
    simp only [step, Option.some.injEq] at hs
    subst hs
    exact fb_armed k _ _ _ _ h
  | advance ticks =>
    simp only [step, Option.some.injEq] at hs
    subst hs
    exact h
  | fire_input =>
    simp only [step] at hs
    split at hs
    · split at hs
      · simp only [Option.some.injEq] at hs
        subst hs
        exact clear_armed { s.b with input_unboost := none } INPUT_BOOST h
      · exact absurd hs (by simp)
    · exact absurd hs (by simp)
  | fire_max =>
    simp only [step] at hs
    split at hs
    · split at hs
      · simp only [Option.some.injEq] at hs
        subst hs
        intro hm
        rw [show (max_unboost_worker { s.b with max_unboost := none }).1.state =
          clear_bit MAX_BOOST s.b.state from rfl,
          test_bit_clear_bit_self MAX_BOOST _ (by decide)] at hm
        exact absurd hm (by simp)
      · exact absurd hs (by simp)
    · exact absurd hs (by simp)

theorem run_armed (k : kparams) (evs : List event) (s s1 : sys)
    (h : max_boost_armed s.b) (hr : run k s evs = some s1) : max_boost_armed s1.b := by
  induction evs generalizing s with
  | nil =>
    simp only [run, Option.some.injEq] at hr
    subst hr
    exact h
  | cons e es ih =>
    simp only [run] at hr
    cases hst : step k s e with
    | none => rw [hst] at hr; exact absurd hr (by simp)
    | some s2 =>
      rw [hst] at hr
      exact ih s2 (step_armed k s s2 e h hst) hr

/-! ## The input-boost window -/

theorem test_bit_clear_bit_lt (i n w : Nat) (hi : i < 64) (hne : i ≠ n) :
    test_bit i (clear_bit n w) = test_bit i w := by
  rw [test_bit_clear_bit]
  simp [hi, Ne.symm hne]

theorem step_window (k : kparams) (t0 : Nat) (s s1 : sys) (e : event)
    (hm : k.msecs_to_jiffies k.input_boost_duration < LONG_SIGN)
    (h : input_window k t0 s) (henv : e.is_env = true) (hs : step k s e = some s1) :
    input_window k t0 s1 := by
  obtain ⟨ht, hmax, hcase⟩ := h
  cases e with
  | kick => exact absurd henv (by decide)
  | kick_max d => exact absurd henv (by simp [event.is_env])
  | fb action blank => exact absurd henv (by simp [event.is_env])
  | advance ticks =>
    simp only [step, Option.some.injEq] at hs
    subst hs
    refine ⟨Nat.le_add_right_of_le ht, hmax, ?_⟩
    rcases hcase with hc | hc
    · exact Or.inl hc
    · exact Or.inr ⟨hc.1, hc.2.1, Nat.le_add_right_of_le hc.2.2⟩
  | fire_input =>
    simp only [step] at hs
    rcases hcase with hc | hc
    · rw [hc.1] at hs
      simp only at hs
      split at hs
      · rename_i hdue
        simp only [Option.some.injEq] at hs
        subst hs
        have hlate : t0 + k.msecs_to_jiffies k.input_boost_duration ≤ s.now := by
          by_contra hlt
          have hnd := time_after_eq_not_due t0 (s.now - t0)
            (k.msecs_to_jiffies k.input_boost_duration) (by omega) hm
          rw [show t0 + (s.now - t0) = s.now by omega] at hnd
          unfold sys.jiffies at hdue
          rw [hnd] at hdue
          exact absurd hdue (by simp)
        refine ⟨ht, ?_, Or.inr ⟨rfl, ?_, hlate⟩⟩
        · show test_bit MAX_BOOST (clear_bit INPUT_BOOST s.b.state) = false
          rw [test_bit_clear_bit_lt _ _ _ (by decide) (by decide)]
          exact hmax
        · show test_bit INPUT_BOOST (clear_bit INPUT_BOOST s.b.state) = false
          exact test_bit_clear_bit_self _ _ (by decide)
      · exact absurd hs (by simp)
    · rw [hc.1] at hs
      exact absurd hs (by simp)
  | fire_max =>
    simp only [step] at hs
    split at hs
    · split at hs
      · simp only [Option.some.injEq] at hs
        subst hs
        have hmax1 : test_bit MAX_BOOST (clear_bit MAX_BOOST s.b.state) = false :=
          test_bit_clear_bit_self _ _ (by decide)
        have hin : test_bit INPUT_BOOST (clear_bit MAX_BOOST s.b.state) =
            test_bit INPUT_BOOST s.b.state :=
          test_bit_clear_bit_lt _ _ _ (by decide) (by decide)
        refine ⟨ht, hmax1, ?_⟩
        rcases hcase with hc | hc
        · exact Or.inl ⟨hc.1, by
            show test_bit INPUT_BOOST (clear_bit MAX_BOOST s.b.state) = true
            rw [hin]
            exact hc.2⟩
        · exact Or.inr ⟨hc.1, by
            show test_bit INPUT_BOOST (clear_bit MAX_BOOST s.b.state) = false
            rw [hin]
            exact hc.2.1, hc.2.2⟩
      · exact absurd hs (by simp)
    · exact absurd hs (by simp)

theorem run_window (k : kparams) (t0 : Nat) (evs : List event) (s s1 : sys)
    (hm : k.msecs_to_jiffies k.input_boost_duration < LONG_SIGN)
    (h : input_window k t0 s) (henv : ∀ e ∈ evs, e.is_env = true)
    (hr : run k s evs = some s1) : input_window k t0 s1 := by
  induction evs generalizing s with
  | nil =>
    simp only [run, Option.some.injEq] at hr
    subst hr
    exact h
  | cons e es ih =>
    simp only [run] at hr
    cases hst : step k s e with
    | none => rw [hst] at hr; exact absurd hr (by simp)
    | some s2 =>
      rw [hst] at hr
      exact ih s2
        (step_window k t0 s s2 e hm h (henv e (List.mem_cons_self e es)) hst)
        (fun x hx => henv x (List.mem_cons_of_mem e hx)) hr

theorem window_query (k : kparams) (t0 : Nat) (s : sys) (h : input_window k t0 s) :
    (s.now < t0 + k.msecs_to_jiffies k.input_boost_duration →
      (boost_adjust_notify s.b).1 = 1) ∧
    (s.b.input_unboost = none → (boost_adjust_notify s.b).1 = 0) := by
  obtain ⟨_, hmax, hcase⟩ := h
  unfold boost_adjust_notify
  rcases hcase with hc | hc
  · refine ⟨fun _ => by simp [hmax, hc.2], fun hn => ?_⟩
    rw [hc.1] at hn
    exact absurd hn (by simp)
  · refine ⟨fun hlt => absurd hc.2.2 (by omega), fun _ => by simp [hmax, hc.2.1]⟩

theorem kick_establishes_window (k : kparams) (b : boost_drv) (t0 : Nat)
    (hD : k.input_boost_duration ≠ 0)
    (hon : test_bit SCREEN_OFF b.state = false)
    (hmax : test_bit MAX_BOOST b.state = false) :
    input_window k t0 ⟨(gpu_input_boost_kick k (t0 % ULONG_MOD) b).1, t0⟩ := by
  unfold gpu_input_boost_kick
  rw [kick_eq]
  simp only [hon, hD, Bool.false_eq_true, if_false]
  refine ⟨le_refl _, ?_, Or.inl ⟨?_, ?_⟩⟩
  · show test_bit MAX_BOOST (set_bit INPUT_BOOST b.state) = false
    rw [test_bit_set_bit, hmax]
    decide
  · show some _ = some _
    congr 1
    unfold ULONG_MOD
    omega
  · show test_bit INPUT_BOOST (set_bit INPUT_BOOST b.state) = true
    rw [test_bit_set_bit]
    simp

/-! ## Boost level query -/

/-- C1: `boost_adjust_notify` returns 2 exactly when `MAX_BOOST` is set, 1 exactly
when `INPUT_BOOST` is set and `MAX_BOOST` is clear, and 0 otherwise (so 0 exactly
when both are clear); it returns 2 when both are set; setting or clearing
`SCREEN_OFF` does not change the result; the driver record is returned as it was. -/
theorem boost_adjust_notify_precedence (b : boost_drv) :
    ((boost_adjust_notify b).1 = 2 ↔ test_bit MAX_BOOST b.state = true) ∧
    ((boost_adjust_notify b).1 = 1 ↔
      (test_bit INPUT_BOOST b.state = true ∧ test_bit MAX_BOOST b.state = false)) ∧
    ((boost_adjust_notify b).1 = 0 ↔
      (test_bit INPUT_BOOST b.state = false ∧ test_bit MAX_BOOST b.state = false)) ∧
    ((boost_adjust_notify b).1 = 2 ∨ (boost_adjust_notify b).1 = 1 ∨
      (boost_adjust_notify b).1 = 0) ∧
    ((test_bit INPUT_BOOST b.state = true ∧ test_bit MAX_BOOST b.state = true) →
      (boost_adjust_notify b).1 = 2) ∧
    (boost_adjust_notify { b with state := set_bit SCREEN_OFF b.state }).1 =
      (boost_adjust_notify b).1 ∧
    (boost_adjust_notify { b with state := clear_bit SCREEN_OFF b.state }).1 =
      (boost_adjust_notify b).1 ∧
    (boost_adjust_notify b).2 = b := by
  have hs : ∀ i, i = MAX_BOOST ∨ i = INPUT_BOOST →
      test_bit i (set_bit SCREEN_OFF b.state) = test_bit i b.state := by
    intro i hi
    rcases hi with rfl | rfl <;> simp [test_bit_set_bit, SCREEN_OFF, MAX_BOOST, INPUT_BOOST]
  have hc : ∀ i, i = MAX_BOOST ∨ i = INPUT_BOOST →
      test_bit i (clear_bit SCREEN_OFF b.state) = test_bit i b.state := by
    intro i hi
    rcases hi with rfl | rfl <;> simp [test_bit_clear_bit, SCREEN_OFF, MAX_BOOST, INPUT_BOOST]
  unfold boost_adjust_notify
  simp only [hs MAX_BOOST (Or.inl rfl), hs INPUT_BOOST (Or.inr rfl),
    hc MAX_BOOST (Or.inl rfl), hc INPUT_BOOST (Or.inr rfl)]
  cases h2 : test_bit MAX_BOOST b.state <;> cases h1 : test_bit INPUT_BOOST b.state <;> simp

theorem boost_adjust_notify_precedence_witness :
    (test_bit INPUT_BOOST (boost_drv.mk none none 0 6).state = true ∧
      test_bit MAX_BOOST (boost_drv.mk none none 0 6).state = true) ∧
    (boost_adjust_notify (boost_drv.mk none none 0 6)).1 = 2 :=
  ⟨by decide, (boost_adjust_notify_precedence (boost_drv.mk none none 0 6)).2.2.2.2.1
    (by decide)⟩

/-! ## Kicks while the screen is off -/

/-- C3: when `SCREEN_OFF` is set, `gpu_input_boost_kick` and
`gpu_input_boost_kick_max` return the driver record unchanged (flag word, expiry and
both deferred works) and make no `wake_up` call, for every duration, every tick and
every parameter set (so every `input_boost_duration`). -/
theorem kick_screen_off_noop (k : kparams) (jiffies d : Nat) (b : boost_drv)
    (hoff : test_bit SCREEN_OFF b.state = true) :
    gpu_input_boost_kick k jiffies b = (b, 0) ∧
    gpu_input_boost_kick_max k jiffies b d = (b, 0) := by
  constructor
  · simp [gpu_input_boost_kick, __gpu_input_boost_kick, hoff]
  · simp [gpu_input_boost_kick_max, __gpu_input_boost_kick_max, hoff]

theorem kick_screen_off_noop_witness :
    test_bit SCREEN_OFF (boost_drv.mk (some 7) none 40 3).state = true ∧
    gpu_input_boost_kick kparams_hz1000 5 (boost_drv.mk (some 7) none 40 3) =
      (boost_drv.mk (some 7) none 40 3, 0) ∧
    gpu_input_boost_kick_max kparams_hz1000 5 (boost_drv.mk (some 7) none 40 3) 50 =
      (boost_drv.mk (some 7) none 40 3, 0) :=
  ⟨by decide, kick_screen_off_noop kparams_hz1000 5 50 (boost_drv.mk (some 7) none 40 3)
    (by decide)⟩

/-! ## Monotonic max-boost deadline -/

/-- C2: starting from the load-time record, after any sequence of
`gpu_input_boost_kick_max` calls (each given by the tick of the call and its
duration, each running to completion, no counter wrap-around: every requested
deadline is below `2 ^ 63`), `max_boost_expires` is the maximum of
`t + msecs_to_jiffies(d)` over the calls: it bounds every requested deadline and,
when there is a call, is one of them; and no call of the sequence lowers it. The
result needs no ordering of the call times, so it holds for non-decreasing ones. -/
theorem kick_max_seq_expiry (k : kparams) (calls : List (Nat × Nat))
    (hwrap : ∀ c ∈ calls, requested_expiry k c < LONG_SIGN) :
    (kick_max_seq k boost_drv_g calls).max_boost_expires =
        (calls.map (requested_expiry k)).foldl max 0 ∧
    (∀ c ∈ calls, requested_expiry k c ≤
        (kick_max_seq k boost_drv_g calls).max_boost_expires) ∧
    (calls ≠ [] → ∃ c ∈ calls,
        (kick_max_seq k boost_drv_g calls).max_boost_expires = requested_expiry k c) ∧
    (∀ pre c post, calls = pre ++ c :: post →
        (kick_max_seq k boost_drv_g pre).max_boost_expires ≤
          (kick_max_seq k boost_drv_g (pre ++ [c])).max_boost_expires) := by
  have h0 : test_bit SCREEN_OFF boost_drv_g.state = false := by decide
  have hb0 : boost_drv_g.max_boost_expires < LONG_SIGN := by decide
  have hmain := seq_expiry_from_state k calls boost_drv_g h0 hb0 hwrap
  have hE : (kick_max_seq k boost_drv_g calls).max_boost_expires =
      (calls.map (requested_expiry k)).foldl max 0 := hmain.1
  refine ⟨hE, ?_, ?_, ?_⟩
  · intro c hc
    rw [hE]
    exact (foldl_max_ge _ 0).2 _ (List.mem_map_of_mem _ hc)
  · intro hne
    rw [hE]
    rcases foldl_max_mem (calls.map (requested_expiry k)) 0 with h | h
    · obtain ⟨c, cs, rfl⟩ := List.exists_cons_of_ne_nil hne
      refine ⟨c, List.mem_cons_self c cs, ?_⟩
      have hle := (foldl_max_ge ((c :: cs).map (requested_expiry k)) 0).2
        (requested_expiry k c) (by simp)
      omega
    · obtain ⟨c, hc, hceq⟩ := List.mem_map.mp h
      exact ⟨c, hc, hceq.symm⟩
  · intro pre c post hsplit
    have hpre := seq_expiry_from_state k pre boost_drv_g h0 hb0
      (fun x hx => hwrap x (by rw [hsplit]; exact List.mem_append_left _ hx))
    have hc : c.1 + k.msecs_to_jiffies c.2 < LONG_SIGN :=
      hwrap c (by rw [hsplit]; simp)
    have h1 := kick_max_expiry_max k c.1 (kick_max_seq k boost_drv_g pre) c.2
      hpre.2.2 hpre.2.1 hc
    have happ : kick_max_seq k boost_drv_g (pre ++ [c]) =
        (gpu_input_boost_kick_max k c.1 (kick_max_seq k boost_drv_g pre) c.2).1 := by
      simp [kick_max_seq, List.foldl_append]
    rw [happ, h1.1]
    exact le_max_left _ _

theorem kick_max_seq_expiry_witness :
    (∀ c ∈ [((0 : Nat), (50 : Nat)), (10, 30)],
        requested_expiry kparams_hz1000 c < LONG_SIGN) ∧
    (kick_max_seq kparams_hz1000 boost_drv_g [(0, 50), (10, 30)]).max_boost_expires = 50 ∧
    (kick_max_seq kparams_hz1000 boost_drv_g [(0, 50)]).max_boost_expires = 50 :=
  have hw : ∀ c ∈ [((0 : Nat), (50 : Nat)), (10, 30)],
      requested_expiry kparams_hz1000 c < LONG_SIGN := by decide
  ⟨hw, (kick_max_seq_expiry kparams_hz1000 [(0, 50), (10, 30)] hw).1.trans (by decide),
    by decide⟩

/-! ## Display notifications -/

/-- C4: evaluation of `fb_notifier_cb` on a blank notification. From the load-time
record, `FB_EVENT_BLANK` with blank value 4 (power-down, not `FB_BLANK_UNBLANK`)
returns `NOTIFY_OK` and the record unchanged with no wake-up, so `SCREEN_OFF` is
still clear afterwards; likewise from a record with both boosts in flight. The
callback has no branch that sets `SCREEN_OFF`. -/
theorem fb_blank_leaves_screen_off_clear :
    fb_notifier_cb kparams_hz1000 0 boost_drv_g 9 4 = (1, boost_drv_g, 0) ∧
    test_bit SCREEN_OFF (fb_notifier_cb kparams_hz1000 0 boost_drv_g 9 4).2.1.state = false ∧
    fb_notifier_cb kparams_hz1000 20 (boost_drv.mk (some 110) (some 50) 50 6) 9 4 =
      (1, boost_drv.mk (some 110) (some 50) 50 6, 0) ∧
    test_bit SCREEN_OFF
      (fb_notifier_cb kparams_hz1000 20 (boost_drv.mk (some 110) (some 50) 50 6) 9 4).2.1.state =
      false := by
  refine ⟨by decide, by decide, by decide, by decide⟩

/-- C5: `fb_notifier_cb` with `FB_EVENT_BLANK` and `FB_BLANK_UNBLANK` at tick `t`
(no counter wrap-around: the previous expiry and the candidate
`t + msecs_to_jiffies(wake_boost_duration)` are below `2 ^ 63`) returns `NOTIFY_OK`
and leaves `SCREEN_OFF` clear and `max_boost_expires` at the maximum of its previous
value and the candidate; when the previous expiry is not later than the candidate,
`MAX_BOOST` is set and the max-unboost work is pending with deadline exactly the
candidate. Nothing is assumed about `SCREEN_OFF` or the max-unboost work before. -/
theorem fb_unblank_wake_boost (k : kparams) (t : Nat) (b : boost_drv)
    (hb : b.max_boost_expires < LONG_SIGN)
    (hn : t + k.msecs_to_jiffies k.wake_boost_duration < LONG_SIGN) :
    (fb_notifier_cb k t b k.FB_EVENT_BLANK k.FB_BLANK_UNBLANK).1 = k.NOTIFY_OK ∧
    test_bit SCREEN_OFF
      (fb_notifier_cb k t b k.FB_EVENT_BLANK k.FB_BLANK_UNBLANK).2.1.state = false ∧
    (fb_notifier_cb k t b k.FB_EVENT_BLANK k.FB_BLANK_UNBLANK).2.1.max_boost_expires =
      max b.max_boost_expires (t + k.msecs_to_jiffies k.wake_boost_duration) ∧
    (b.max_boost_expires ≤ t + k.msecs_to_jiffies k.wake_boost_duration →
      test_bit MAX_BOOST
        (fb_notifier_cb k t b k.FB_EVENT_BLANK k.FB_BLANK_UNBLANK).2.1.state = true ∧
      (fb_notifier_cb k t b k.FB_EVENT_BLANK k.FB_BLANK_UNBLANK).2.1.max_unboost =
        some (t + k.msecs_to_jiffies k.wake_boost_duration)) := by
  have hoff : test_bit SCREEN_OFF
      ({ b with state := clear_bit SCREEN_OFF b.state } : boost_drv).state = false :=
    test_bit_clear_bit_self SCREEN_OFF b.state (by decide)
  have hmod : (t + k.msecs_to_jiffies k.wake_boost_duration) % ULONG_MOD =
      t + k.msecs_to_jiffies k.wake_boost_duration := by
    unfold ULONG_MOD
    unfold LONG_SIGN at hn
    omega
  have h1 := kick_max_expiry_max k t { b with state := clear_bit SCREEN_OFF b.state }
    k.wake_boost_duration hoff hb hn
  unfold gpu_input_boost_kick_max at h1
  rw [fb_notifier_cb_unblank]
  refine ⟨rfl, h1.2, h1.1, ?_⟩
  intro hle
  rw [kick_max_eq, hmod, time_after_no_wrap _ _ hb hn]
  have hnot : ¬ t + k.msecs_to_jiffies k.wake_boost_duration < b.max_boost_expires := by
    omega
  simp only [hoff, hnot, decide_False, Bool.false_eq_true, if_false, test_bit_set_bit]
  simp

theorem fb_unblank_wake_boost_witness :
    (boost_drv.mk none (some 1400) 1400 5).max_boost_expires < LONG_SIGN ∧
    (1000 + kparams_hz1000.msecs_to_jiffies kparams_hz1000.wake_boost_duration <
      LONG_SIGN) ∧
    (fb_notifier_cb kparams_hz1000 1000 (boost_drv.mk none (some 1400) 1400 5)
      kparams_hz1000.FB_EVENT_BLANK kparams_hz1000.FB_BLANK_UNBLANK).2.1 =
      boost_drv.mk none (some 2000) 2000 4 ∧
    (fb_notifier_cb kparams_hz1000 1000 (boost_drv.mk none (some 1400) 1400 5)
      kparams_hz1000.FB_EVENT_BLANK kparams_hz1000.FB_BLANK_UNBLANK).2.1.max_boost_expires =
      max 1400 2000 :=
  ⟨by decide, by decide, by decide,
    (fb_unblank_wake_boost kparams_hz1000 1000 (boost_drv.mk none (some 1400) 1400 5)
      (by decide) (by decide)).2.2.1⟩

/-! ## Input boost window -/

/-- C6: `gpu_input_boost_kick` at tick `t0`. With `input_boost_duration` zero the
call returns the record unchanged and signals nothing. With a non-zero duration `D`
and `SCREEN_OFF` clear it sets `INPUT_BOOST` and leaves the input-unboost work
pending with deadline `t0 + msecs_to_jiffies(D)` (as an `unsigned long`), whatever
its status was before. If moreover `MAX_BOOST` is clear and `msecs_to_jiffies(D)` is
a valid tick offset (below `2 ^ 63`), then while only the environment acts (time
passing, deferred works running no earlier than their deadline) `boost_adjust_notify`
returns 1 at every tick before `t0 + msecs_to_jiffies(D)`, every such tick is
reached with that answer, and it returns 0 once the input-unboost work has run,
which it can do at its deadline. -/
theorem input_kick_window (k : kparams) (b : boost_drv) (t0 : Nat) :
    (k.input_boost_duration = 0 →
      gpu_input_boost_kick k (t0 % ULONG_MOD) b = (b, 0)) ∧
    (k.input_boost_duration ≠ 0 → test_bit SCREEN_OFF b.state = false →
      test_bit INPUT_BOOST (gpu_input_boost_kick k (t0 % ULONG_MOD) b).1.state = true ∧
      (gpu_input_boost_kick k (t0 % ULONG_MOD) b).1.input_unboost =
        some ((t0 + k.msecs_to_jiffies k.input_boost_duration) % ULONG_MOD)) ∧
    (k.input_boost_duration ≠ 0 → test_bit SCREEN_OFF b.state = false →
      test_bit MAX_BOOST b.state = false →
      k.msecs_to_jiffies k.input_boost_duration < LONG_SIGN →
      (∀ evs s, (∀ e ∈ evs, e.is_env = true) →
        run k ⟨(gpu_input_boost_kick k (t0 % ULONG_MOD) b).1, t0⟩ evs = some s →
        (s.now < t0 + k.msecs_to_jiffies k.input_boost_duration →
          (boost_adjust_notify s.b).1 = 1) ∧
        (s.b.input_unboost = none → (boost_adjust_notify s.b).1 = 0)) ∧
      (∀ e, e < k.msecs_to_jiffies k.input_boost_duration →
        ∃ s, run k ⟨(gpu_input_boost_kick k (t0 % ULONG_MOD) b).1, t0⟩
            [event.advance e] = some s ∧
          s.now = t0 + e ∧ (boost_adjust_notify s.b).1 = 1) ∧
      (∃ s, run k ⟨(gpu_input_boost_kick k (t0 % ULONG_MOD) b).1, t0⟩
          [event.advance (k.msecs_to_jiffies k.input_boost_duration),
            event.fire_input] = some s ∧
        s.b.input_unboost = none ∧ (boost_adjust_notify s.b).1 = 0)) := by
  refine ⟨?_, ?_, ?_⟩
  · intro hD
    unfold gpu_input_boost_kick
    rw [kick_eq]
    by_cases h1 : test_bit SCREEN_OFF b.state = true <;> simp [h1, hD]
  · intro hD hon
    have hw := kick_establishes_window k b t0 hD hon
    unfold gpu_input_boost_kick at hw ⊢
    rw [kick_eq] at hw ⊢
    simp only [hon, hD, Bool.false_eq_true, if_false] at hw ⊢
    constructor
    · show test_bit INPUT_BOOST (set_bit INPUT_BOOST b.state) = true
      rw [test_bit_set_bit]
      simp
    · show some _ = some _
      congr 1
      unfold ULONG_MOD
      omega
  · intro hD hon hmax hm
    have hw := kick_establishes_window k b t0 hD hon hmax
    have hall : ∀ evs s, (∀ e ∈ evs, e.is_env = true) →
        run k ⟨(gpu_input_boost_kick k (t0 % ULONG_MOD) b).1, t0⟩ evs = some s →
        (s.now < t0 + k.msecs_to_jiffies k.input_boost_duration →
          (boost_adjust_notify s.b).1 = 1) ∧
        (s.b.input_unboost = none → (boost_adjust_notify s.b).1 = 0) :=
      fun evs s henv hr => window_query k t0 s (run_window k t0 evs _ s hm hw henv hr)
    refine ⟨hall, ?_, ?_⟩
    · intro e he
      refine ⟨⟨(gpu_input_boost_kick k (t0 % ULONG_MOD) b).1, t0 + e⟩, rfl, rfl, ?_⟩
      exact (hall [event.advance e] _ (by simp [event.is_env]) rfl).1
        (by show t0 + e < _; omega)
    · have hdue : time_after_eq
          ((t0 + k.msecs_to_jiffies k.input_boost_duration) % ULONG_MOD)
          ((t0 + k.msecs_to_jiffies k.input_boost_duration) % ULONG_MOD) = true :=
        time_after_eq_due t0 _ _ (le_refl _) (by unfold LONG_SIGN; omega)
      have hpend := hw.2.2
      rcases hpend with hc | hc
      · have hrun : run k ⟨(gpu_input_boost_kick k (t0 % ULONG_MOD) b).1, t0⟩
            [event.advance (k.msecs_to_jiffies k.input_boost_duration),
              event.fire_input] =
            some ⟨(input_unboost_worker
              { (gpu_input_boost_kick k (t0 % ULONG_MOD) b).1 with
                input_unboost := none }).1,
              t0 + k.msecs_to_jiffies k.input_boost_duration⟩ := by
          simp only [run, step, Option.bind, sys.jiffies]
          rw [hc.1]
          simp only [hdue, if_true]
        refine ⟨_, hrun, rfl, ?_⟩
        exact (hall _ _ (by simp [event.is_env]) hrun).2 rfl
      · have h1 := (kick_establishes_window k b t0 hD hon hmax).2.2
        exfalso
        have hset : test_bit INPUT_BOOST
            (gpu_input_boost_kick k (t0 % ULONG_MOD) b).1.state = true := by
          unfold gpu_input_boost_kick
          rw [kick_eq]
          simp only [hon, hD, Bool.false_eq_true, if_false]
          show test_bit INPUT_BOOST (set_bit INPUT_BOOST b.state) = true
          rw [test_bit_set_bit]
          simp
        rw [hc.2.1] at hset
        exact absurd hset (by simp)

theorem input_kick_window_witness :
    kparams_hz1000.input_boost_duration = 100 ∧
    test_bit SCREEN_OFF boost_drv_g.state = false ∧
    test_bit MAX_BOOST boost_drv_g.state = false ∧
    kparams_hz1000.msecs_to_jiffies kparams_hz1000.input_boost_duration < LONG_SIGN ∧
    run kparams_hz1000 ⟨(gpu_input_boost_kick kparams_hz1000 (0 % ULONG_MOD) boost_drv_g).1, 0⟩
      [event.advance 99] = some ⟨boost_drv.mk (some 100) none 0 2, 99⟩ ∧
    (boost_adjust_notify (boost_drv.mk (some 100) none 0 2)).1 = 1 ∧
    run kparams_hz1000 ⟨(gpu_input_boost_kick kparams_hz1000 (0 % ULONG_MOD) boost_drv_g).1, 0⟩
      [event.advance 100, event.fire_input] = some ⟨boost_drv.mk none none 0 0, 100⟩ ∧
    (boost_adjust_notify (boost_drv.mk none none 0 0)).1 = 0 :=
  ⟨by decide, by decide, by decide, by decide, by decide,
    (((input_kick_window kparams_hz1000 boost_drv_g 0).2.2 (by decide) (by decide)
      (by decide) (by decide)).1 [event.advance 99] ⟨boost_drv.mk (some 100) none 0 2, 99⟩
      (by decide) (by decide)).1 (by decide),
    by decide, by decide⟩

/-! ## Deferred unboost -/

/-- C7: for every driver record (flag word an `unsigned long`),
`input_unboost_worker` clears `INPUT_BOOST` and `max_unboost_worker` clears
`MAX_BOOST`; each leaves every other bit of the flag word, `max_boost_expires` and
both deferred works as they were; each gives the same record when run twice as when
run once; and run on a record whose flag is already clear each returns that record
unchanged, so `boost_adjust_notify` answers the same before and after. Each run makes
exactly one `wake_up` call. -/
theorem unboost_worker_idempotent (b : boost_drv) (hw : b.state < ULONG_MOD) :
    (test_bit INPUT_BOOST (input_unboost_worker b).1.state = false ∧
      (∀ i, i ≠ INPUT_BOOST →
        test_bit i (input_unboost_worker b).1.state = test_bit i b.state) ∧
      (input_unboost_worker b).1.max_boost_expires = b.max_boost_expires ∧
      (input_unboost_worker b).1.input_unboost = b.input_unboost ∧
      (input_unboost_worker b).1.max_unboost = b.max_unboost ∧
      (input_unboost_worker (input_unboost_worker b).1).1 = (input_unboost_worker b).1 ∧
      (test_bit INPUT_BOOST b.state = false →
        (input_unboost_worker b).1 = b ∧
        (boost_adjust_notify (input_unboost_worker b).1).1 = (boost_adjust_notify b).1) ∧
      (input_unboost_worker b).2 = 1) ∧
    (test_bit MAX_BOOST (max_unboost_worker b).1.state = false ∧
      (∀ i, i ≠ MAX_BOOST →
        test_bit i (max_unboost_worker b).1.state = test_bit i b.state) ∧
      (max_unboost_worker b).1.max_boost_expires = b.max_boost_expires ∧
      (max_unboost_worker b).1.input_unboost = b.input_unboost ∧
      (max_unboost_worker b).1.max_unboost = b.max_unboost ∧
      (max_unboost_worker (max_unboost_worker b).1).1 = (max_unboost_worker b).1 ∧
      (test_bit MAX_BOOST b.state = false →
        (max_unboost_worker b).1 = b ∧
        (boost_adjust_notify (max_unboost_worker b).1).1 = (boost_adjust_notify b).1) ∧
      (max_unboost_worker b).2 = 1) := by
  constructor
  · refine ⟨test_bit_clear_bit_self _ _ (by decide),
      fun i hi => test_bit_clear_bit_of_ne i _ _ hw hi, rfl, rfl, rfl, ?_, ?_, rfl⟩
    · simp only [input_unboost_worker, clear_bit_idem]
    · intro hclear
      have h : (input_unboost_worker b).1 = b := by
        simp only [input_unboost_worker, clear_bit_eq_self _ _ (by decide) hw hclear]
      exact ⟨h, by rw [h]⟩
  · refine ⟨test_bit_clear_bit_self _ _ (by decide),
      fun i hi => test_bit_clear_bit_of_ne i _ _ hw hi, rfl, rfl, rfl, ?_, ?_, rfl⟩
    · simp only [max_unboost_worker, clear_bit_idem]
    · intro hclear
      have h : (max_unboost_worker b).1 = b := by
        simp only [max_unboost_worker, clear_bit_eq_self _ _ (by decide) hw hclear]
      exact ⟨h, by rw [h]⟩

theorem unboost_worker_idempotent_witness :
    (boost_drv.mk (some 9) (some 12) 12 7).state < ULONG_MOD ∧
    (input_unboost_worker (boost_drv.mk (some 9) (some 12) 12 7)).1 =
      boost_drv.mk (some 9) (some 12) 12 5 ∧
    (max_unboost_worker (boost_drv.mk (some 9) (some 12) 12 7)).1 =
      boost_drv.mk (some 9) (some 12) 12 3 ∧
    (input_unboost_worker
      (input_unboost_worker (boost_drv.mk (some 9) (some 12) 12 7)).1).1 =
      (input_unboost_worker (boost_drv.mk (some 9) (some 12) 12 7)).1 :=
  ⟨by decide, by decide, by decide,
    (unboost_worker_idempotent (boost_drv.mk (some 9) (some 12) 12 7) (by decide)).1.2.2.2.2.2.1⟩

/-! ## Module initialisation -/

/-- C8: evaluation of `gpu_input_boost_init` when only the input-handler
registration fails: with `input_register_handler` returning `-ENOMEM` (-12),
`fb_register_client` returning 0 and `kthread_run` returning a task, init returns 0;
the failure is logged by `pr_err` and nothing else. The same for every error code. -/
theorem init_input_failure_returns_zero :
    gpu_input_boost_init (-12) 0 none =
      (0, [init_call.input_register_handler, init_call.pr_err (-12),
        init_call.fb_register_client, init_call.kthread_run]) ∧
    (∀ e : Int, (gpu_input_boost_init e 0 none).1 = 0) := by
  refine ⟨by decide, ?_⟩
  intro e
  simp [gpu_input_boost_init]

/-- C9: evaluation of `gpu_input_boost_init` when the input-handler registration
has failed and init later aborts. With both registrations returning `-ENOMEM`
(-12), and also with the display notifier registered and `kthread_run` returning
`ERR_PTR(-12)`, the error path calls `input_unregister_handler` on a handler that
was never registered. -/
theorem init_unregisters_unregistered_handler :
    gpu_input_boost_init (-12) (-12) none =
      (-12, [init_call.input_register_handler, init_call.pr_err (-12),
        init_call.fb_register_client, init_call.pr_err (-12),
        init_call.input_unregister_handler]) ∧
    gpu_input_boost_init (-12) 0 (some (-12)) =
      (-12, [init_call.input_register_handler, init_call.pr_err (-12),
        init_call.fb_register_client, init_call.kthread_run, init_call.pr_err (-12),
        init_call.fb_unregister_client, init_call.input_unregister_handler]) := by
  constructor <;> decide

/-! ## The max-boost invariant -/

/-- C10: in every state reached from the load-time state by any sequence of kicks,
max kicks, display notifications, time advances and firings of a pending unboost
work at or after its deadline, if `MAX_BOOST` is set then the max-unboost work is
pending with deadline equal to `max_boost_expires`; hence `max_boost_expires` is
later than the current tick or the max-unboost work is pending. -/
theorem max_boost_set_implies_armed (k : kparams) (evs : List event) (s : sys)
    (hr : run k sys_init evs = some s)
    (hm : test_bit MAX_BOOST s.b.state = true) :
    s.b.max_unboost = some s.b.max_boost_expires ∧
    (time_after s.b.max_boost_expires s.jiffies = true ∨ s.b.max_unboost.isSome = true) := by
  have h0 : max_boost_armed sys_init.b := by
    intro h
    exact absurd h (by decide)
  have h := run_armed k evs sys_init s h0 hr hm
  exact ⟨h, Or.inr (by rw [h]; rfl)⟩

theorem max_boost_set_implies_armed_witness :
    run kparams_hz1000 sys_init
        [event.kick_max 50, event.advance 10, event.kick, event.kick_max 30,
          event.advance 100, event.fire_input, event.fb 9 0] =
      some ⟨boost_drv.mk none (some 1110) 1110 4, 110⟩ ∧
    test_bit MAX_BOOST (boost_drv.mk none (some 1110) 1110 4).state = true ∧
    (boost_drv.mk none (some 1110) 1110 4).max_unboost = some 1110 :=
  ⟨by decide, by decide,
    (max_boost_set_implies_armed kparams_hz1000
      [event.kick_max 50, event.advance 10, event.kick, event.kick_max 30,
        event.advance 100, event.fire_input, event.fb 9 0]
      ⟨boost_drv.mk none (some 1110) 1110 4, 110⟩ (by decide) (by decide)).1⟩

end GpuInputBoost
